import Mathlib

/-!
Verification development for the resource client adapter layer of a
robotics client SDK. Each adapter class is embedded shallowly: a method
call is modelled as a pure function from the adapter value and its
arguments to a post-state, a trace of observable events (logger
invocations and channel dispatches, in program order) and an
`Except`-typed outcome. The injected RPC channel is modelled as a record
of oracle functions, one per remote method, each returning either a
response value or a transport failure message. The external protobuf
runtime (Struct encoding, Timestamp/Date conversion) is a declared black
box of the system: JSON-like structures are finite key-value maps, and
the encode/decode steps that the runtime performs are value-preserving.
-/

namespace ViamSdk

/-- A JavaScript number: either NaN or an ordinary numeric value
(modelled as a rational; the adapter layer only moves numbers around and
tests them for NaN, it never computes with them). -/
inductive JSNum where
  | nan
  | num (q : ℚ)
deriving DecidableEq, Repr

/-- A protobuf Struct, i.e. a JSON-like object: a finite list of
string-keyed numeric fields. The adapters treat Struct payloads as
opaque pass-through data, so scalar leaf values suffice. -/
abbrev Struct := List (String × JSNum)

/-- The options bag accepted by every adapter constructor. Its one
recognized option is an optional request-logging hook; since the hook
returns nothing, only its presence is modelled (its invocations are
recorded in the event trace). -/
structure Options where
  requestLogger : Bool := false
deriving DecidableEq, Repr

/-- An error surfaced to the caller of an adapter method: either a
failure propagated from the channel, or an error thrown locally by the
adapter itself. -/
inductive CallError where
  | channel (msg : String)
  | thrown (msg : String)
deriving DecidableEq, Repr

/-- Observable events of one adapter method call, in program order. -/
inductive Event (Req : Type) where
  | log (r : Req)
  | dispatch (r : Req)

/-- The complete outcome of one adapter method call: the adapter state
after the call, the trace of observable events, and the returned value
or error. -/
structure RunResult (σ : Type) (Req : Type) (ρ : Type) where
  post : σ
  trace : List (Event Req)
  result : Except CallError ρ

/-- Translation of the statement `this.options.requestLogger?.(request)`:
one log event when the hook is configured, nothing otherwise. -/
def logTrace {Req : Type} (opts : Options) (r : Req) : List (Event Req) :=
  if opts.requestLogger then [Event.log r] else []

/-- Translation of `await stub(request)`: a channel failure message is
propagated to the caller unchanged, as a channel-level error. -/
def channelCall {Req Resp : Type} (stub : Req → Except String Resp) (r : Req) :
    Except CallError Resp :=
  match stub r with
  | Except.error e => Except.error (CallError.channel e)
  | Except.ok resp => Except.ok resp

/-- The requests carried by the dispatch events of a trace, in order. -/
def dispatched {Req : Type} (tr : List (Event Req)) : List Req :=
  tr.filterMap fun e =>
    match e with
    | Event.dispatch r => some r
    | Event.log _ => none

/-- The uniform shape of every non-streaming adapter method trace: the
configured hook fires exactly once, synchronously, strictly before the
single channel dispatch, and with exactly the request value that is then
dispatched; with no hook configured, only the dispatch happens. -/
def loggedThenDispatched {Req : Type} (opts : Options) (tr : List (Event Req))
    (r : Req) : Prop :=
  tr = if opts.requestLogger then [Event.log r, Event.dispatch r]
       else [Event.dispatch r]

/-! ## The generic command envelope (shared helper `doCommandFromClient`) -/

/-- Wire message `DoCommandRequest`: a name-qualified command envelope. -/
structure DoCommandRequest where
  name : String
  command : Struct
deriving DecidableEq, Repr

/-- Wire message `DoCommandResponse`: an optional generic result payload. -/
structure DoCommandResponse where
  result : Option Struct := none
deriving DecidableEq, Repr

/-- Shallow embedding of the shared helper `doCommandFromClient`. It
builds the envelope from the bound name and the verbatim command payload
(the runtime Struct copy constructor is value-preserving), invokes the
configured logger, dispatches, and unwraps the generic result payload.
The absent-payload check `if (!result) return {}` fires exactly when the
response carries no result message, since the JSON object produced by a
present payload is always truthy. -/
def doCommandFromClient
    (doCommander : DoCommandRequest → Except String DoCommandResponse)
    (name : String) (command : Struct) (options : Options := {}) :
    List (Event DoCommandRequest) × Except CallError Struct :=
  let request : DoCommandRequest := { name := name, command := command }
  (logTrace options request ++ [Event.dispatch request],
   (channelCall doCommander request).map fun response => response.result.getD [])

/-! ## Motor component (connect client, `src/components/motor/client.ts`) -/

namespace Motor

structure SetPowerRequest where
  name : String
  powerPct : ℚ
  extra : Struct
deriving DecidableEq, Repr

abbrev SetPowerResponse := Unit

structure GoForRequest where
  name : String
  rpm : ℚ
  revolutions : ℚ
  extra : Struct
deriving DecidableEq, Repr

abbrev GoForResponse := Unit

structure GoToRequest where
  name : String
  rpm : ℚ
  positionRevolutions : ℚ
  extra : Struct
deriving DecidableEq, Repr

abbrev GoToResponse := Unit

structure SetRPMRequest where
  name : String
  rpm : ℚ
  extra : Struct
deriving DecidableEq, Repr

abbrev SetRPMResponse := Unit

structure ResetZeroPositionRequest where
  name : String
  offset : ℚ
  extra : Struct
deriving DecidableEq, Repr

abbrev ResetZeroPositionResponse := Unit

structure StopRequest where
  name : String
  extra : Struct
deriving DecidableEq, Repr

abbrev StopResponse := Unit

structure GetPropertiesRequest where
  name : String
  extra : Struct
deriving DecidableEq, Repr

structure GetPropertiesResponse where
  positionReporting : Bool
deriving DecidableEq, Repr

/-- The reshaped plain object returned by `getProperties`. -/
structure MotorProperties where
  positionReporting : Bool
deriving DecidableEq, Repr

structure GetPositionRequest where
  name : String
  extra : Struct
deriving DecidableEq, Repr

structure GetPositionResponse where
  position : ℚ
deriving DecidableEq, Repr

structure IsPoweredRequest where
  name : String
  extra : Struct
deriving DecidableEq, Repr

structure IsPoweredResponse where
  isOn : Bool
  powerPct : ℚ
deriving DecidableEq, Repr

structure IsMovingRequest where
  name : String
deriving DecidableEq, Repr

structure IsMovingResponse where
  isMoving : Bool
deriving DecidableEq, Repr

/-- The typed service stub produced from the channel at construction
time (`client.createServiceClient(MotorService)`), modelled as one
oracle function per remote method. -/
structure MotorService where
  setPower : SetPowerRequest → Except String SetPowerResponse
  goFor : GoForRequest → Except String GoForResponse
  goTo : GoToRequest → Except String GoToResponse
  setRPM : SetRPMRequest → Except String SetRPMResponse
  resetZeroPosition : ResetZeroPositionRequest → Except String ResetZeroPositionResponse
  stop : StopRequest → Except String StopResponse
  getProperties : GetPropertiesRequest → Except String GetPropertiesResponse
  getPosition : GetPositionRequest → Except String GetPositionResponse
  isPowered : IsPoweredRequest → Except String IsPoweredResponse
  isMoving : IsMovingRequest → Except String IsMovingResponse
  doCommand : DoCommandRequest → Except String DoCommandResponse

end Motor

/-- The motor adapter handle fixed at construction: service client
derived from the channel, resource name, options bag. -/
structure MotorClient where
  client : Motor.MotorService
  name : String
  options : Options

def MotorClient.setPower (c : MotorClient) (power : ℚ) (extra : Struct := []) :
    RunResult MotorClient Motor.SetPowerRequest Unit :=
  let request : Motor.SetPowerRequest :=
    { name := c.name, powerPct := power, extra := extra }
  { post := c
    trace := logTrace c.options request ++ [Event.dispatch request]
    result := channelCall c.client.setPower request }

def MotorClient.goFor (c : MotorClient) (rpm : ℚ) (revolutions : ℚ)
    (extra : Struct := []) : RunResult MotorClient Motor.GoForRequest Unit :=
  let request : Motor.GoForRequest :=
    { name := c.name, rpm := rpm, revolutions := revolutions, extra := extra }
  { post := c
    trace := logTrace c.options request ++ [Event.dispatch request]
    result := channelCall c.client.goFor request }

def MotorClient.goTo (c : MotorClient) (rpm : ℚ) (positionRevolutions : ℚ)
    (extra : Struct := []) : RunResult MotorClient Motor.GoToRequest Unit :=
  let request : Motor.GoToRequest :=
    { name := c.name, rpm := rpm, positionRevolutions := positionRevolutions,
      extra := extra }
  { post := c
    trace := logTrace c.options request ++ [Event.dispatch request]
    result := channelCall c.client.goTo request }

def MotorClient.setRPM (c : MotorClient) (rpm : ℚ) (extra : Struct := []) :
    RunResult MotorClient Motor.SetRPMRequest Unit :=
  let request : Motor.SetRPMRequest := { name := c.name, rpm := rpm, extra := extra }
  { post := c
    trace := logTrace c.options request ++ [Event.dispatch request]
    result := channelCall c.client.setRPM request }

def MotorClient.resetZeroPosition (c : MotorClient) (offset : ℚ)
    (extra : Struct := []) :
    RunResult MotorClient Motor.ResetZeroPositionRequest Unit :=
  let request : Motor.ResetZeroPositionRequest :=
    { name := c.name, offset := offset, extra := extra }
  { post := c
    trace := logTrace c.options request ++ [Event.dispatch request]
    result := channelCall c.client.resetZeroPosition request }

def MotorClient.stop (c : MotorClient) (extra : Struct := []) :
    RunResult MotorClient Motor.StopRequest Unit :=
  let request : Motor.StopRequest := { name := c.name, extra := extra }
  { post := c
    trace := logTrace c.options request ++ [Event.dispatch request]
    result := channelCall c.client.stop request }

def MotorClient.getProperties (c : MotorClient) (extra : Struct := []) :
    RunResult MotorClient Motor.GetPropertiesRequest Motor.MotorProperties :=
  let request : Motor.GetPropertiesRequest := { name := c.name, extra := extra }
  { post := c
    trace := logTrace c.options request ++ [Event.dispatch request]
    result := (channelCall c.client.getProperties request).map fun response =>
      { positionReporting := response.positionReporting } }

def MotorClient.getPosition (c : MotorClient) (extra : Struct := []) :
    RunResult MotorClient Motor.GetPositionRequest ℚ :=
  let request : Motor.GetPositionRequest := { name := c.name, extra := extra }
  { post := c
    trace := logTrace c.options request ++ [Event.dispatch request]
    result := (channelCall c.client.getPosition request).map fun response =>
      response.position }

def MotorClient.isPowered (c : MotorClient) (extra : Struct := []) :
    RunResult MotorClient Motor.IsPoweredRequest (Bool × ℚ) :=
  let request : Motor.IsPoweredRequest := { name := c.name, extra := extra }
  { post := c
    trace := logTrace c.options request ++ [Event.dispatch request]
    result := (channelCall c.client.isPowered request).map fun response =>
      (response.isOn, response.powerPct) }

def MotorClient.isMoving (c : MotorClient) :
    RunResult MotorClient Motor.IsMovingRequest Bool :=
  let request : Motor.IsMovingRequest := { name := c.name }
  { post := c
    trace := logTrace c.options request ++ [Event.dispatch request]
    result := (channelCall c.client.isMoving request).map fun response =>
      response.isMoving }

/-- `doCommand` delegates to the shared helper, passing the bound name,
the payload and the options unchanged. -/
def MotorClient.doCommand (c : MotorClient) (command : Struct) :
    RunResult MotorClient DoCommandRequest Struct :=
  let r := doCommandFromClient c.client.doCommand c.name command c.options
  { post := c, trace := r.1, result := r.2 }

/-! ## Navigation service (`src/services/navigation/client.ts`) -/

/-- Wire message `GeoPoint`: two double coordinates (always numbers at
this type, possibly NaN). -/
structure GeoPoint where
  latitude : JSNum
  longitude : JSNum
deriving DecidableEq, Repr

def JSNum.isNaN : JSNum → Bool
  | JSNum.nan => true
  | JSNum.num _ => false

/-- Embedding of `isValidGeoPoint` from `src/types.ts`. The two
typeof-is-not-number disjuncts of the source cannot fire on a value
of the modelled number type (a GeoPoint field is always a JS number),
so the check reduces to the two NaN tests. -/
def isValidGeoPoint (value : GeoPoint) : Bool :=
  !(value.latitude.isNaN || value.longitude.isNaN)

namespace Nav

structure GetLocationRequest where
  name : String
  extra : Struct
deriving DecidableEq, Repr

structure GetLocationResponse where
  location : Option GeoPoint
  compassHeading : ℚ
deriving DecidableEq, Repr

structure NavigationService where
  getLocation : GetLocationRequest → Except String GetLocationResponse
  doCommand : DoCommandRequest → Except String DoCommandResponse

end Nav

structure NavigationClient where
  client : Nav.NavigationService
  name : String
  options : Options

/-- Embedding of `NavigationClient.getLocation`. After a successful
channel call, a missing location throws the local error `no location`
and an invalid one the local error `invalid location`; a `GeoPoint`
object, even one with default fields, is never falsy, so the first check
fires exactly when the field is absent. -/
def NavigationClient.getLocation (c : NavigationClient) (extra : Struct := []) :
    RunResult NavigationClient Nav.GetLocationRequest Nav.GetLocationResponse :=
  let request : Nav.GetLocationRequest := { name := c.name, extra := extra }
  { post := c
    trace := logTrace c.options request ++ [Event.dispatch request]
    result :=
      match channelCall c.client.getLocation request with
      | Except.error e => Except.error e
      | Except.ok response =>
        match response.location with
        | none => Except.error (CallError.thrown "no location")
        | some location =>
          if isValidGeoPoint location then Except.ok response
          else Except.error (CallError.thrown "invalid location") }

def NavigationClient.doCommand (c : NavigationClient) (command : Struct) :
    RunResult NavigationClient DoCommandRequest Struct :=
  let r := doCommandFromClient c.client.doCommand c.name command c.options
  { post := c, trace := r.1, result := r.2 }

/-! ## Binary chunk concatenation (`concatArrayU8`, duplicated verbatim
in the SLAM client and in `src/app/billing-client.ts`) -/

/-- A byte buffer; the adapter layer never inspects the bytes. -/
abbrev Uint8Array := List Nat

/-- Embedding of `TypedArray.set(array, offset)` on a buffer large
enough to hold `array` at `offset` (the only way `concatArrayU8` uses
it): the bytes of `array` overwrite the region starting at `offset`. -/
def typedArraySet (result : Uint8Array) (array : Uint8Array) (offset : Nat) :
    Uint8Array :=
  result.take offset ++ array ++ result.drop (offset + array.length)

/-- The `reduce` computing the total length in `concatArrayU8`. -/
def totalLengthU8 (arrays : List Uint8Array) : Nat :=
  arrays.foldl (fun acc value => acc + value.length) 0

/-- Embedding of `concatArrayU8`: allocate a zero buffer of the total
length, then copy each chunk at the running offset. -/
def concatArrayU8 (arrays : List Uint8Array) : Uint8Array :=
  let result : Uint8Array := List.replicate (totalLengthU8 arrays) 0
  (arrays.foldl
    (fun state array => (typedArraySet state.1 array state.2, state.2 + array.length))
    (result, 0)).1

/-! ## SLAM service (SLAM client source file) -/

namespace Slam

structure GetPointCloudMapRequest where
  name : String
  returnEditedMap : Bool
deriving DecidableEq, Repr

structure GetPointCloudMapResponse where
  pointCloudPcdChunk : Uint8Array
deriving DecidableEq, Repr

structure GetInternalStateRequest where
  name : String
deriving DecidableEq, Repr

structure GetInternalStateResponse where
  internalStateChunk : Uint8Array
deriving DecidableEq, Repr

/-- The SLAM service stub. A server-streaming method is modelled as an
oracle yielding the whole delivered chunk sequence in delivery order, or
a transport failure (a stream that fails mid-way never returns a value
to the caller, so only the successful full sequence is observable). -/
structure SlamService where
  getPointCloudMap : GetPointCloudMapRequest → Except String (List GetPointCloudMapResponse)
  getInternalState : GetInternalStateRequest → Except String (List GetInternalStateResponse)
  doCommand : DoCommandRequest → Except String DoCommandResponse

end Slam

structure SlamClient where
  client : Slam.SlamService
  name : String
  options : Options

/-- Embedding of `SlamClient.getPointCloudMap`: the `for await` loop
pushes one `pointCloudPcdChunk` per delivered message, in delivery
order, and the buffers are concatenated at the end. An omitted
`returnEditedMap` argument leaves the proto3 bool at its default. -/
def SlamClient.getPointCloudMap (c : SlamClient)
    (returnEditedMap : Option Bool := none) :
    RunResult SlamClient Slam.GetPointCloudMapRequest Uint8Array :=
  let request : Slam.GetPointCloudMapRequest :=
    { name := c.name, returnEditedMap := returnEditedMap.getD false }
  { post := c
    trace := logTrace c.options request ++ [Event.dispatch request]
    result := (channelCall c.client.getPointCloudMap request).map fun stream =>
      concatArrayU8 (stream.map fun chunk => chunk.pointCloudPcdChunk) }

/-- Embedding of `SlamClient.getInternalState` (same accumulation). -/
def SlamClient.getInternalState (c : SlamClient) :
    RunResult SlamClient Slam.GetInternalStateRequest Uint8Array :=
  let request : Slam.GetInternalStateRequest := { name := c.name }
  { post := c
    trace := logTrace c.options request ++ [Event.dispatch request]
    result := (channelCall c.client.getInternalState request).map fun stream =>
      concatArrayU8 (stream.map fun chunk => chunk.internalStateChunk) }

def SlamClient.doCommand (c : SlamClient) (command : Struct) :
    RunResult SlamClient DoCommandRequest Struct :=
  let r := doCommandFromClient c.client.doCommand c.name command c.options
  { post := c, trace := r.1, result := r.2 }

/-! ## Billing app client (`src/app/billing-client.ts`) -/

namespace Billing

structure GetInvoicePdfRequest where
  id : String
  orgId : String
deriving DecidableEq, Repr

structure GetInvoicePdfResponse where
  chunk : Uint8Array
deriving DecidableEq, Repr

structure BillingService where
  getInvoicePdf : GetInvoicePdfRequest → Except String (List GetInvoicePdfResponse)

end Billing

/-- The billing client holds only the service stub (no resource name,
no options bag). -/
structure BillingClient where
  client : Billing.BillingService

/-- Embedding of `BillingClient.getInvoicePdf`: accumulate the streamed
pdf chunks in delivery order and concatenate. -/
def BillingClient.getInvoicePdf (b : BillingClient) (id : String) (orgId : String) :
    RunResult BillingClient Billing.GetInvoicePdfRequest Uint8Array :=
  let request : Billing.GetInvoicePdfRequest := { id := id, orgId := orgId }
  { post := b
    trace := [Event.dispatch request]
    result := (channelCall b.client.getInvoicePdf request).map fun pdfParts =>
      concatArrayU8 (pdfParts.map fun pdfPart => pdfPart.chunk) }

/-! ## Data app client (`DataClient` source file) -/

/-- A wire timestamp; the runtime conversion `toDate` is
value-preserving, so timestamps and dates share a carrier. -/
abbrev Timestamp := ℚ

abbrev Date := ℚ

def Timestamp.toDate (t : Timestamp) : Date := t

namespace DataApi

/-- Wire enum `Order`. -/
inductive Order where
  | unspecified
  | descending
  | ascending
deriving DecidableEq, Repr

/-- Wire message `Filter`, opaque to the projection logic under study;
one representative field stands for its many selector fields. -/
structure Filter where
  componentName : String := ""
deriving DecidableEq, Repr

structure DataRequest where
  filter : Option Filter
  limit : Option Nat
  sortOrder : Option Order
  last : String
deriving DecidableEq, Repr

structure TabularDataByFilterRequest where
  dataRequest : Option DataRequest
  countOnly : Bool
  includeInternalData : Bool
deriving DecidableEq, Repr

/-- Wire message `CaptureMetadata`; `new CaptureMetadata()` is the
default value. One representative field stands for its field set. -/
structure CaptureMetadata where
  partId : String := ""
deriving DecidableEq, Repr

/-- Wire message `TabularData` as delivered in the response. -/
structure TabularDataEntry where
  data : Option Struct
  metadataIndex : Nat
  timeRequested : Option Timestamp
  timeReceived : Option Timestamp
deriving DecidableEq, Repr

structure TabularDataByFilterResponse where
  data : List TabularDataEntry
  metadata : List CaptureMetadata
  count : Nat
  last : String
deriving DecidableEq, Repr

/-- The SDK-side `TabularData` interface the method projects into. -/
structure TabularData where
  data : Option Struct
  metadata : Option CaptureMetadata
  timeRequested : Option Date
  timeReceived : Option Date
deriving DecidableEq, Repr

/-- The `{ data, count, last }` record returned by the method. -/
structure TabularPage where
  data : List TabularData
  count : Nat
  last : String
deriving DecidableEq, Repr

structure DataService where
  tabularDataByFilter : TabularDataByFilterRequest → Except String TabularDataByFilterResponse

/-- Wire enum `DataType` of the datasync schema. -/
inductive DataType where
  | unspecified
  | binarySensor
  | tabularSensor
  | file
deriving DecidableEq, Repr

structure SensorMetadata where
  timeRequested : Option Timestamp := none
  timeReceived : Option Timestamp := none
deriving DecidableEq, Repr

structure SensorData where
  metadata : Option SensorMetadata := none
  struct : Option Struct := none
deriving DecidableEq, Repr

structure UploadMetadata where
  partId : String := ""
  componentType : String := ""
  componentName : String := ""
  methodName : String := ""
  type : DataType := DataType.unspecified
  tags : List String := []
deriving DecidableEq, Repr

structure DataCaptureUploadRequest where
  metadata : Option UploadMetadata := none
  sensorContents : List SensorData := []
deriving DecidableEq, Repr

structure DataCaptureUploadResponse where
  fileId : String
deriving DecidableEq, Repr

structure DataSyncService where
  dataCaptureUpload : DataCaptureUploadRequest → Except String DataCaptureUploadResponse

end DataApi

/-- The data app client: per-service stubs created from the transport at
construction. -/
structure DataClient where
  dataClient : DataApi.DataService
  dataSyncClient : DataApi.DataSyncService

/-- Embedding of the `response.data.map (...)` projection block inside
`tabularDataByFilter`. The metadata ternary yields a fresh default
`CaptureMetadata` when the index is out of bounds of a nonempty metadata
list; otherwise it indexes the list (yielding nothing when the list is
empty, since indexing is then out of bounds). Both projected time fields
read the `timeRequested` timestamp of the wire entry. -/
def projectTabularData (response : DataApi.TabularDataByFilterResponse) :
    List DataApi.TabularData :=
  let mdListLength := response.metadata.length
  response.data.map fun data =>
    let mdIndex := data.metadataIndex
    let metadata : Option DataApi.CaptureMetadata :=
      if mdListLength ≠ 0 ∧ mdIndex ≥ mdListLength then some {}
      else response.metadata.get? mdIndex
    { data := data.data
      metadata := metadata
      timeRequested := data.timeRequested.map Timestamp.toDate
      timeReceived := data.timeRequested.map Timestamp.toDate }

/-- Embedding of `DataClient.tabularDataByFilter` (no logging hook
exists on this client). -/
def DataClient.tabularDataByFilter (c : DataClient)
    (filter : Option DataApi.Filter := none) (limit : Option Nat := none)
    (sortOrder : Option DataApi.Order := none) (last : String := "")
    (countOnly : Bool := false) (includeInternalData : Bool := false) :
    RunResult DataClient DataApi.TabularDataByFilterRequest DataApi.TabularPage :=
  let dataReq : DataApi.DataRequest :=
    { filter := filter, limit := limit, sortOrder := sortOrder, last := last }
  let req : DataApi.TabularDataByFilterRequest :=
    { dataRequest := some dataReq, countOnly := countOnly,
      includeInternalData := includeInternalData }
  { post := c
    trace := [Event.dispatch req]
    result := (channelCall c.dataClient.tabularDataByFilter req).map fun response =>
      { data := projectTabularData response
        count := response.count
        last := response.last } }

/-- Embedding of `DataClient.tabularDataCaptureUpload`. The parallel
array lengths are validated first; on mismatch the local error is thrown
before any request value is constructed and before any channel call (the
trace stays empty). Otherwise the upload request is assembled (the
`if (dates)` guard in the loop leaves the sensor times unset when the
index lookup fails, which cannot happen once the lengths agree) and
dispatched through the datasync service stub. -/
def DataClient.tabularDataCaptureUpload (c : DataClient)
    (tabularData : List Struct) (partId : String) (componentType : String)
    (componentName : String) (methodName : String)
    (dataRequestTimes : List (Date × Date))
    (tags : Option (List String) := none) :
    RunResult DataClient DataApi.DataCaptureUploadRequest String :=
  if dataRequestTimes.length ≠ tabularData.length then
    { post := c
      trace := []
      result := Except.error
        (CallError.thrown "dataRequestTimes and data lengths must be equal.") }
  else
    let metadata : DataApi.UploadMetadata :=
      { partId := partId, componentType := componentType,
        componentName := componentName, methodName := methodName,
        type := DataApi.DataType.tabularSensor, tags := tags.getD [] }
    let sensorContents : List DataApi.SensorData :=
      tabularData.enum.map fun entry =>
        let sensorMetadata : DataApi.SensorMetadata :=
          match dataRequestTimes.get? entry.1 with
          | some dates =>
            { timeRequested := some dates.1, timeReceived := some dates.2 }
          | none => {}
        { metadata := some sensorMetadata, struct := some entry.2 }
    let req : DataApi.DataCaptureUploadRequest :=
      { metadata := some metadata, sensorContents := sensorContents }
    { post := c
      trace := [Event.dispatch req]
      result := (channelCall c.dataSyncClient.dataCaptureUpload req).map
        fun response => response.fileId }

/-! ## Legacy google-protobuf motor client (side-by-side duplicate
implementation of `MotorClient`). Requests are built imperatively: a
default-initialized message (all proto3 defaults) mutated by one setter
per field, each setter modelled as a record update. The response getters
are plain field reads. `Struct.fromJavaScript` is the external runtime
encoding of the extension map and is value-preserving, like the
`new Struct(...)` encoding on the connect side. -/

namespace MotorLegacy

def setPowerRequest (name : String) (power : ℚ) (extra : Struct) :
    Motor.SetPowerRequest :=
  let request : Motor.SetPowerRequest := { name := "", powerPct := 0, extra := [] }
  let request := { request with name := name }
  let request := { request with powerPct := power }
  let request := { request with extra := extra }
  request

def goForRequest (name : String) (rpm : ℚ) (revolutions : ℚ) (extra : Struct) :
    Motor.GoForRequest :=
  let request : Motor.GoForRequest :=
    { name := "", rpm := 0, revolutions := 0, extra := [] }
  let request := { request with name := name }
  let request := { request with rpm := rpm }
  let request := { request with revolutions := revolutions }
  let request := { request with extra := extra }
  request

def goToRequest (name : String) (rpm : ℚ) (positionRevolutions : ℚ)
    (extra : Struct) : Motor.GoToRequest :=
  let request : Motor.GoToRequest :=
    { name := "", rpm := 0, positionRevolutions := 0, extra := [] }
  let request := { request with name := name }
  let request := { request with rpm := rpm }
  let request := { request with positionRevolutions := positionRevolutions }
  let request := { request with extra := extra }
  request

def setRPMRequest (name : String) (rpm : ℚ) (extra : Struct) :
    Motor.SetRPMRequest :=
  let request : Motor.SetRPMRequest := { name := "", rpm := 0, extra := [] }
  let request := { request with name := name }
  let request := { request with rpm := rpm }
  let request := { request with extra := extra }
  request

def resetZeroPositionRequest (name : String) (offset : ℚ) (extra : Struct) :
    Motor.ResetZeroPositionRequest :=
  let request : Motor.ResetZeroPositionRequest :=
    { name := "", offset := 0, extra := [] }
  let request := { request with name := name }
  let request := { request with offset := offset }
  let request := { request with extra := extra }
  request

def stopRequest (name : String) (extra : Struct) : Motor.StopRequest :=
  let request : Motor.StopRequest := { name := "", extra := [] }
  let request := { request with name := name }
  let request := { request with extra := extra }
  request

def getPropertiesRequest (name : String) (extra : Struct) :
    Motor.GetPropertiesRequest :=
  let request : Motor.GetPropertiesRequest := { name := "", extra := [] }
  let request := { request with name := name }
  let request := { request with extra := extra }
  request

def getPositionRequest (name : String) (extra : Struct) :
    Motor.GetPositionRequest :=
  let request : Motor.GetPositionRequest := { name := "", extra := [] }
  let request := { request with name := name }
  let request := { request with extra := extra }
  request

def isPoweredRequest (name : String) (extra : Struct) : Motor.IsPoweredRequest :=
  let request : Motor.IsPoweredRequest := { name := "", extra := [] }
  let request := { request with name := name }
  let request := { request with extra := extra }
  request

def isMovingRequest (name : String) : Motor.IsMovingRequest :=
  let request : Motor.IsMovingRequest := { name := "" }
  let request := { request with name := name }
  request

/-- Legacy `getProperties` return: `{ positionReporting:
response.getPositionReporting() }`. -/
def getPropertiesReturn (response : Motor.GetPropertiesResponse) :
    Motor.MotorProperties :=
  { positionReporting := response.positionReporting }

/-- Legacy `getPosition` return: `response.getPosition()`. -/
def getPositionReturn (response : Motor.GetPositionResponse) : ℚ :=
  response.position

/-- Legacy `isPowered` return: `[response.getIsOn(),
response.getPowerPct()]`. -/
def isPoweredReturn (response : Motor.IsPoweredResponse) : Bool × ℚ :=
  (response.isOn, response.powerPct)

/-- Legacy `isMoving` return: `response.getIsMoving()`. -/
def isMovingReturn (response : Motor.IsMovingResponse) : Bool :=
  response.isMoving

end MotorLegacy

/-! ## Concrete fixtures (test doubles for the channel stubs) -/

def okDoCommander : DoCommandRequest → Except String DoCommandResponse :=
  fun _ => Except.ok { result := none }

def motorServiceEx : Motor.MotorService where
  setPower := fun _ => Except.ok ()
  goFor := fun _ => Except.ok ()
  goTo := fun _ => Except.ok ()
  setRPM := fun _ => Except.ok ()
  resetZeroPosition := fun _ => Except.ok ()
  stop := fun _ => Except.ok ()
  getProperties := fun _ => Except.ok { positionReporting := true }
  getPosition := fun _ => Except.ok { position := 3 }
  isPowered := fun _ => Except.ok { isOn := true, powerPct := 1 }
  isMoving := fun _ => Except.ok { isMoving := false }
  doCommand := fun _ => Except.ok { result := none }

def motorClientEx : MotorClient := ⟨motorServiceEx, "motor-1", {}⟩

def navServiceNoLocation : Nav.NavigationService where
  getLocation := fun _ => Except.ok { location := none, compassHeading := 0 }
  doCommand := fun _ => Except.ok { result := none }

def navClientNoLocation : NavigationClient := ⟨navServiceNoLocation, "nav-1", {}⟩

def mapsEx : List Slam.GetPointCloudMapResponse :=
  [{ pointCloudPcdChunk := [1, 2] }, { pointCloudPcdChunk := [3] }]

def statesEx : List Slam.GetInternalStateResponse :=
  [{ internalStateChunk := [4] }]

def pdfPartsEx : List Billing.GetInvoicePdfResponse :=
  [{ chunk := [7] }, { chunk := [8, 9] }]

def slamServiceEx : Slam.SlamService where
  getPointCloudMap := fun _ => Except.ok mapsEx
  getInternalState := fun _ => Except.ok statesEx
  doCommand := fun _ => Except.ok { result := none }

def slamClientEx : SlamClient := ⟨slamServiceEx, "slam-1", {}⟩

def billingServiceEx : Billing.BillingService where
  getInvoicePdf := fun _ => Except.ok pdfPartsEx

def billingClientEx : BillingClient := ⟨billingServiceEx⟩

def tabularRespEx : DataApi.TabularDataByFilterResponse where
  data := [{ data := none, metadataIndex := 0,
             timeRequested := some 5, timeReceived := some 9 }]
  metadata := []
  count := 1
  last := "x"

def dataServiceEx : DataApi.DataService where
  tabularDataByFilter := fun _ => Except.ok tabularRespEx

def dataSyncServiceEx : DataApi.DataSyncService where
  dataCaptureUpload := fun _ => Except.ok { fileId := "file-1" }

def dataClientEx : DataClient := ⟨dataServiceEx, dataSyncServiceEx⟩

/-- The projection of the single entry of `tabularRespEx`. -/
def projectedEntryEx : DataApi.TabularData where
  data := none
  metadata := none
  timeRequested := some 5
  timeReceived := some 5

/-! ## Helper lemmas about the uniform trace shape -/

theorem logTrace_dispatch_shape {Req : Type} (opts : Options) (r : Req) :
    loggedThenDispatched opts (logTrace opts r ++ [Event.dispatch r]) r := by
  unfold loggedThenDispatched logTrace
  cases h : opts.requestLogger <;> simp

theorem dispatched_logTrace {Req : Type} (opts : Options) (r : Req) :
    dispatched (logTrace opts r ++ [Event.dispatch r]) = [r] := by
  unfold dispatched logTrace
  cases h : opts.requestLogger <;> simp [List.filterMap]

theorem channelCall_map_not_thrown {Req Resp ρ : Type}
    (stub : Req → Except String Resp) (r : Req) (f : Resp → ρ) (msg : String) :
    (channelCall stub r).map f ≠ Except.error (CallError.thrown msg) := by
  unfold channelCall
  cases stub r <;> simp [Except.map]

/-! ## Correctness of the chunk accumulation -/

theorem foldl_add_length (l : List Uint8Array) (n : Nat) :
    l.foldl (fun acc value => acc + value.length) n = n + (l.map List.length).sum := by
  induction l generalizing n with
  | nil => simp
  | cons a rest ih =>
      rw [List.foldl_cons, ih (n + a.length)]
      simp [List.map_cons, List.sum_cons]
      omega

theorem totalLengthU8_eq_sum (l : List Uint8Array) :
    totalLengthU8 l = (l.map List.length).sum := by
  simpa [totalLengthU8] using foldl_add_length l 0

theorem totalLengthU8_cons (a : Uint8Array) (rest : List Uint8Array) :
    totalLengthU8 (a :: rest) = a.length + totalLengthU8 rest := by
  simp [totalLengthU8_eq_sum]

theorem typedArraySet_fit (acc a : Uint8Array) (s : Nat) :
    typedArraySet (acc ++ List.replicate (a.length + s) 0) a acc.length
      = (acc ++ a) ++ List.replicate s 0 := by
  unfold typedArraySet
  rw [List.take_left, List.drop_append, List.drop_replicate]
  have h : a.length + s - a.length = s := by omega
  rw [h]

theorem concat_fold_eq (arrays : List Uint8Array) (acc : Uint8Array) :
    (arrays.foldl
        (fun state array =>
          (typedArraySet state.1 array state.2, state.2 + array.length))
        (acc ++ List.replicate (totalLengthU8 arrays) 0, acc.length)).1
      = acc ++ arrays.flatten := by
  induction arrays generalizing acc with
  | nil => simp [totalLengthU8]
  | cons a rest ih =>
      rw [totalLengthU8_cons, List.foldl_cons, typedArraySet_fit]
      rw [show acc.length + a.length = (acc ++ a).length from (List.length_append acc a).symm]
      rw [ih (acc ++ a)]
      simp [List.append_assoc]

theorem concatArrayU8_eq_flatten (arrays : List Uint8Array) :
    concatArrayU8 arrays = arrays.flatten := by
  have h := concat_fold_eq arrays []
  simpa [concatArrayU8] using h

/-! ## Claim theorems -/

/-- C1: for every adapter generic doCommand call with bound resource
name n and command payload c, the shared helper builds a request
envelope whose name field is n and whose command field is exactly c, and
when the remote response carries no result payload the call returns the
empty structure rather than raising an error. The motor and navigation
adapters dispatch exactly that envelope through their delegation to the
helper. -/
theorem doCommand_envelope_and_empty_default
    (doCommander : DoCommandRequest → Except String DoCommandResponse)
    (n : String) (command : Struct) (options : Options)
    (c : MotorClient) (nav : NavigationClient)
    (hresp : doCommander { name := n, command := command }
      = Except.ok { result := none }) :
    dispatched (doCommandFromClient doCommander n command options).1
      = [{ name := n, command := command }] ∧
    (doCommandFromClient doCommander n command options).2 = Except.ok [] ∧
    dispatched (c.doCommand command).trace = [{ name := c.name, command := command }] ∧
    dispatched (nav.doCommand command).trace = [{ name := nav.name, command := command }] := by
  refine ⟨?_, ?_, ?_, ?_⟩
  · exact dispatched_logTrace options _
  · simp [doCommandFromClient, channelCall, hresp, Except.map]
  · exact dispatched_logTrace c.options _
  · exact dispatched_logTrace nav.options _

theorem doCommand_envelope_and_empty_default_witness :
    dispatched (doCommandFromClient okDoCommander "arm-1" [("foo", JSNum.num 1)] {}).1
      = [{ name := "arm-1", command := [("foo", JSNum.num 1)] }] ∧
    (doCommandFromClient okDoCommander "arm-1" [("foo", JSNum.num 1)] {}).2
      = Except.ok [] :=
  let h := doCommand_envelope_and_empty_default okDoCommander "arm-1"
    [("foo", JSNum.num 1)] {} motorClientEx navClientNoLocation rfl
  ⟨h.1, h.2.1⟩

/-- C2: a motor adapter bound to name `motor-1`, asked to set power 0.5
with the extension-map argument omitted, dispatches exactly the request
`{name := "motor-1", powerPct := 0.5, extra := {}}`, and when the
channel resolves with the empty successful response the call resolves
without error and returns no value. -/
theorem setPower_motor1_request_and_resolve
    (svc : Motor.MotorService) (options : Options)
    (h : svc.setPower { name := "motor-1", powerPct := 0.5, extra := [] }
      = Except.ok ()) :
    dispatched ((⟨svc, "motor-1", options⟩ : MotorClient).setPower 0.5).trace
      = [{ name := "motor-1", powerPct := 0.5, extra := [] }] ∧
    ((⟨svc, "motor-1", options⟩ : MotorClient).setPower 0.5).result
      = Except.ok () := by
  constructor
  · exact dispatched_logTrace options _
  · simp [MotorClient.setPower, channelCall, h]

theorem setPower_motor1_request_and_resolve_witness :
    dispatched ((⟨motorServiceEx, "motor-1", {}⟩ : MotorClient).setPower 0.5).trace
      = [{ name := "motor-1", powerPct := 0.5, extra := [] }] ∧
    ((⟨motorServiceEx, "motor-1", {}⟩ : MotorClient).setPower 0.5).result
      = Except.ok () :=
  setPower_motor1_request_and_resolve motorServiceEx {} rfl

/-- C3: when the navigation getLocation channel call succeeds but the
location field is absent, the method raises the local error
`no location`; when the location is present but has a NaN (or otherwise
non-numeric) coordinate it raises the local error `invalid location`;
otherwise it returns the response unchanged; and neither failure branch
is a channel-level error. -/
theorem getLocation_postcondition_errors (c : NavigationClient) (extra : Struct)
    (response : Nav.GetLocationResponse)
    (h : c.client.getLocation { name := c.name, extra := extra }
      = Except.ok response) :
    (response.location = none →
      (c.getLocation extra).result = Except.error (CallError.thrown "no location")) ∧
    (∀ p, response.location = some p → isValidGeoPoint p = false →
      (c.getLocation extra).result = Except.error (CallError.thrown "invalid location")) ∧
    (∀ p, response.location = some p → isValidGeoPoint p = true →
      (c.getLocation extra).result = Except.ok response) ∧
    (∀ e, (c.getLocation extra).result ≠ Except.error (CallError.channel e)) := by
  have hrun : (c.getLocation extra).result
      = match response.location with
        | none => Except.error (CallError.thrown "no location")
        | some location =>
          if isValidGeoPoint location then Except.ok response
          else Except.error (CallError.thrown "invalid location") := by
    simp [NavigationClient.getLocation, channelCall, h]
  refine ⟨?_, ?_, ?_, ?_⟩
  · intro hl; rw [hrun, hl]
  · intro p hl hv; rw [hrun, hl]; simp [hv]
  · intro p hl hv; rw [hrun, hl]; simp [hv]
  · intro e
    rw [hrun]
    cases hl : response.location with
    | none => simp
    | some p => by_cases hv : isValidGeoPoint p <;> simp [hv]

theorem getLocation_postcondition_errors_witness :
    (navClientNoLocation.getLocation []).result
      = Except.error (CallError.thrown "no location") :=
  (getLocation_postcondition_errors navClientNoLocation []
    { location := none, compassHeading := 0 } rfl).1 rfl

/-- C4: a streaming-accumulation method returns exactly the
concatenation of the delivered chunks in delivery order: `concatArrayU8`
equals list flattening, and the SLAM point-cloud, SLAM internal-state
and billing invoice-pdf methods each return the flattening of the chunk
fields of the delivered stream (the empty stream yields the empty
buffer as the flattening of the empty list). -/
theorem streaming_chunks_concat_in_order (arrays : List Uint8Array)
    (s : SlamClient) (b : BillingClient) (rem : Option Bool) (id orgId : String)
    (maps : List Slam.GetPointCloudMapResponse)
    (states : List Slam.GetInternalStateResponse)
    (pdfParts : List Billing.GetInvoicePdfResponse)
    (h1 : s.client.getPointCloudMap
      { name := s.name, returnEditedMap := rem.getD false } = Except.ok maps)
    (h2 : s.client.getInternalState { name := s.name } = Except.ok states)
    (h3 : b.client.getInvoicePdf { id := id, orgId := orgId } = Except.ok pdfParts) :
    concatArrayU8 arrays = arrays.flatten ∧
    (s.getPointCloudMap rem).result
      = Except.ok ((maps.map fun chunk => chunk.pointCloudPcdChunk).flatten) ∧
    (s.getInternalState).result
      = Except.ok ((states.map fun chunk => chunk.internalStateChunk).flatten) ∧
    (b.getInvoicePdf id orgId).result
      = Except.ok ((pdfParts.map fun pdfPart => pdfPart.chunk).flatten) := by
  refine ⟨concatArrayU8_eq_flatten arrays, ?_, ?_, ?_⟩
  · simp [SlamClient.getPointCloudMap, channelCall, h1, Except.map,
      concatArrayU8_eq_flatten]
  · simp [SlamClient.getInternalState, channelCall, h2, Except.map,
      concatArrayU8_eq_flatten]
  · simp [BillingClient.getInvoicePdf, channelCall, h3, Except.map,
      concatArrayU8_eq_flatten]

theorem streaming_chunks_concat_in_order_witness :
    concatArrayU8 [] = List.flatten [] ∧
    (slamClientEx.getPointCloudMap none).result
      = Except.ok ((mapsEx.map fun chunk => chunk.pointCloudPcdChunk).flatten) ∧
    (slamClientEx.getInternalState).result
      = Except.ok ((statesEx.map fun chunk => chunk.internalStateChunk).flatten) ∧
    (billingClientEx.getInvoicePdf "inv-1" "org-1").result
      = Except.ok ((pdfPartsEx.map fun pdfPart => pdfPart.chunk).flatten) :=
  streaming_chunks_concat_in_order [] slamClientEx billingClientEx none
    "inv-1" "org-1" mapsEx statesEx pdfPartsEx rfl rfl rfl

/-- C5: for every modelled adapter method, a configured requestLogger
hook fires exactly once per call, synchronously before the single
channel dispatch, with exactly the request value that is then
dispatched; when no hook is configured only the dispatch happens; and
the dispatched request is unaffected by the presence of the hook (the
stated request values never depend on the options bag, and swapping
options bags leaves the dispatched requests unchanged). -/
theorem requestLogger_once_before_dispatch
    (c : MotorClient) (power rpm revolutions positionRevolutions offset : ℚ)
    (extra command : Struct) (nav : NavigationClient) (s : SlamClient)
    (rem : Option Bool)
    (doCommander : DoCommandRequest → Except String DoCommandResponse)
    (n : String) (options o₁ o₂ : Options) :
    loggedThenDispatched c.options (c.setPower power extra).trace
      { name := c.name, powerPct := power, extra := extra } ∧
    loggedThenDispatched c.options (c.goFor rpm revolutions extra).trace
      { name := c.name, rpm := rpm, revolutions := revolutions, extra := extra } ∧
    loggedThenDispatched c.options (c.goTo rpm positionRevolutions extra).trace
      { name := c.name, rpm := rpm, positionRevolutions := positionRevolutions,
        extra := extra } ∧
    loggedThenDispatched c.options (c.setRPM rpm extra).trace
      { name := c.name, rpm := rpm, extra := extra } ∧
    loggedThenDispatched c.options (c.resetZeroPosition offset extra).trace
      { name := c.name, offset := offset, extra := extra } ∧
    loggedThenDispatched c.options (c.stop extra).trace
      { name := c.name, extra := extra } ∧
    loggedThenDispatched c.options (c.getProperties extra).trace
      ({ name := c.name, extra := extra } : Motor.GetPropertiesRequest) ∧
    loggedThenDispatched c.options (c.getPosition extra).trace
      ({ name := c.name, extra := extra } : Motor.GetPositionRequest) ∧
    loggedThenDispatched c.options (c.isPowered extra).trace
      ({ name := c.name, extra := extra } : Motor.IsPoweredRequest) ∧
    loggedThenDispatched c.options (c.isMoving).trace { name := c.name } ∧
    loggedThenDispatched c.options (c.doCommand command).trace
      { name := c.name, command := command } ∧
    loggedThenDispatched nav.options (nav.getLocation extra).trace
      { name := nav.name, extra := extra } ∧
    loggedThenDispatched s.options (s.getPointCloudMap rem).trace
      { name := s.name, returnEditedMap := rem.getD false } ∧
    loggedThenDispatched s.options (s.getInternalState).trace { name := s.name } ∧
    loggedThenDispatched options
      (doCommandFromClient doCommander n command options).1
      { name := n, command := command } ∧
    dispatched ((⟨c.client, c.name, o₁⟩ : MotorClient).setPower power extra).trace
      = dispatched ((⟨c.client, c.name, o₂⟩ : MotorClient).setPower power extra).trace ∧
    dispatched (doCommandFromClient doCommander n command o₁).1
      = dispatched (doCommandFromClient doCommander n command o₂).1 := by
  refine ⟨?_, ?_, ?_, ?_, ?_, ?_, ?_, ?_, ?_, ?_, ?_, ?_, ?_, ?_, ?_, ?_, ?_⟩
  · exact logTrace_dispatch_shape c.options _
  · exact logTrace_dispatch_shape c.options _
  · exact logTrace_dispatch_shape c.options _
  · exact logTrace_dispatch_shape c.options _
  · exact logTrace_dispatch_shape c.options _
  · exact logTrace_dispatch_shape c.options _
  · exact logTrace_dispatch_shape c.options _
  · exact logTrace_dispatch_shape c.options _
  · exact logTrace_dispatch_shape c.options _
  · exact logTrace_dispatch_shape c.options _
  · exact logTrace_dispatch_shape c.options _
  · exact logTrace_dispatch_shape nav.options _
  · exact logTrace_dispatch_shape s.options _
  · exact logTrace_dispatch_shape s.options _
  · exact logTrace_dispatch_shape options _
  · simp only [MotorClient.setPower]
    rw [dispatched_logTrace o₁, dispatched_logTrace o₂]
  · simp only [doCommandFromClient]
    rw [dispatched_logTrace o₁, dispatched_logTrace o₂]

/-- C6: for every modelled adapter method accepting an optional
extension map, calling with an explicitly empty map and calling with the
argument omitted produce identical calls (hence byte-identical wire
requests): the omitted argument defaults to the empty map. -/
theorem empty_extra_equals_omitted (c : MotorClient)
    (power rpm revolutions positionRevolutions offset : ℚ)
    (nav : NavigationClient) :
    c.setPower power [] = c.setPower power ∧
    c.goFor rpm revolutions [] = c.goFor rpm revolutions ∧
    c.goTo rpm positionRevolutions [] = c.goTo rpm positionRevolutions ∧
    c.setRPM rpm [] = c.setRPM rpm ∧
    c.resetZeroPosition offset [] = c.resetZeroPosition offset ∧
    c.stop [] = c.stop ∧
    c.getProperties [] = c.getProperties ∧
    c.getPosition [] = c.getPosition ∧
    c.isPowered [] = c.isPowered ∧
    nav.getLocation [] = nav.getLocation ∧
    dispatched (c.setPower power).trace
      = [{ name := c.name, powerPct := power, extra := [] }] :=
  ⟨rfl, rfl, rfl, rfl, rfl, rfl, rfl, rfl, rfl, rfl, dispatched_logTrace c.options _⟩

/-- C8: no adapter method mutates adapter-owned state: for every
modelled adapter and method (successful or failing channel stubs alike,
since the stub is universally quantified inside the adapter value), the
adapter value after the call equals the adapter value before it. -/
theorem adapter_state_immutable (c : MotorClient)
    (power rpm revolutions positionRevolutions offset : ℚ)
    (extra command : Struct) (nav : NavigationClient) (s : SlamClient)
    (rem : Option Bool) (b : BillingClient) (id orgId : String) (d : DataClient)
    (filter : Option DataApi.Filter) (limit : Option Nat)
    (sortOrder : Option DataApi.Order) (last : String)
    (countOnly includeInternalData : Bool) (tabularData : List Struct)
    (partId componentType componentName methodName : String)
    (dataRequestTimes : List (Date × Date)) (tags : Option (List String)) :
    (c.setPower power extra).post = c ∧
    (c.goFor rpm revolutions extra).post = c ∧
    (c.goTo rpm positionRevolutions extra).post = c ∧
    (c.setRPM rpm extra).post = c ∧
    (c.resetZeroPosition offset extra).post = c ∧
    (c.stop extra).post = c ∧
    (c.getProperties extra).post = c ∧
    (c.getPosition extra).post = c ∧
    (c.isPowered extra).post = c ∧
    (c.isMoving).post = c ∧
    (c.doCommand command).post = c ∧
    (nav.getLocation extra).post = nav ∧
    (nav.doCommand command).post = nav ∧
    (s.getPointCloudMap rem).post = s ∧
    (s.getInternalState).post = s ∧
    (s.doCommand command).post = s ∧
    (b.getInvoicePdf id orgId).post = b ∧
    (d.tabularDataByFilter filter limit sortOrder last countOnly
      includeInternalData).post = d ∧
    (d.tabularDataCaptureUpload tabularData partId componentType componentName
      methodName dataRequestTimes tags).post = d := by
  refine ⟨rfl, rfl, rfl, rfl, rfl, rfl, rfl, rfl, rfl, rfl, rfl, rfl, rfl, rfl,
    rfl, rfl, rfl, rfl, ?_⟩
  unfold DataClient.tabularDataCaptureUpload
  split <;> rfl

/-- C7: tabularDataCaptureUpload raises the local error
`dataRequestTimes and data lengths must be equal.` whenever the two
parallel arrays have different lengths, before any request value is
constructed and before any channel call (the event trace is empty);
when the lengths agree, no locally thrown error of any kind is raised
(the only possible failure is a propagated channel error). -/
theorem tabularDataCaptureUpload_length_check (c : DataClient)
    (tabularData : List Struct)
    (partId componentType componentName methodName : String)
    (dataRequestTimes : List (Date × Date)) (tags : Option (List String)) :
    (dataRequestTimes.length ≠ tabularData.length →
      (c.tabularDataCaptureUpload tabularData partId componentType componentName
        methodName dataRequestTimes tags).trace = [] ∧
      (c.tabularDataCaptureUpload tabularData partId componentType componentName
        methodName dataRequestTimes tags).result
        = Except.error
          (CallError.thrown "dataRequestTimes and data lengths must be equal.")) ∧
    (dataRequestTimes.length = tabularData.length →
      ∀ msg, (c.tabularDataCaptureUpload tabularData partId componentType
        componentName methodName dataRequestTimes tags).result
        ≠ Except.error (CallError.thrown msg)) := by
  constructor
  · intro hne
    constructor <;>
      simp [DataClient.tabularDataCaptureUpload, hne]
  · intro heq msg
    simp only [DataClient.tabularDataCaptureUpload, heq]
    simp only [ne_eq, not_true_eq_false, if_false]
    exact channelCall_map_not_thrown _ _ _ msg

theorem tabularDataCaptureUpload_length_check_witness :
    (dataClientEx.tabularDataCaptureUpload [[("a", JSNum.num 1)]] "part-1"
      "movementSensor" "sensor-1" "readings" [] none).trace = [] ∧
    (dataClientEx.tabularDataCaptureUpload [[("a", JSNum.num 1)]] "part-1"
      "movementSensor" "sensor-1" "readings" [] none).result
      = Except.error
        (CallError.thrown "dataRequestTimes and data lengths must be equal.") :=
  (tabularDataCaptureUpload_length_check dataClientEx [[("a", JSNum.num 1)]]
    "part-1" "movementSensor" "sensor-1" "readings" [] none).1 (by decide)

/-- C9: the connect-based and the legacy google-protobuf-based motor
clients implement the same request-building logic: for every method and
identical inputs the connect client dispatches exactly the request that
the legacy setter sequence builds, and on identical responses the value
the connect client returns equals the legacy response projection. -/
theorem motor_request_encodings_agree (c : MotorClient)
    (power rpm revolutions positionRevolutions offset : ℚ) (extra : Struct)
    (rProps : Motor.GetPropertiesResponse) (rPos : Motor.GetPositionResponse)
    (rPow : Motor.IsPoweredResponse) (rMov : Motor.IsMovingResponse)
    (h1 : c.client.getProperties { name := c.name, extra := extra }
      = Except.ok rProps)
    (h2 : c.client.getPosition { name := c.name, extra := extra }
      = Except.ok rPos)
    (h3 : c.client.isPowered { name := c.name, extra := extra }
      = Except.ok rPow)
    (h4 : c.client.isMoving { name := c.name } = Except.ok rMov) :
    dispatched (c.setPower power extra).trace
      = [MotorLegacy.setPowerRequest c.name power extra] ∧
    dispatched (c.goFor rpm revolutions extra).trace
      = [MotorLegacy.goForRequest c.name rpm revolutions extra] ∧
    dispatched (c.goTo rpm positionRevolutions extra).trace
      = [MotorLegacy.goToRequest c.name rpm positionRevolutions extra] ∧
    dispatched (c.setRPM rpm extra).trace
      = [MotorLegacy.setRPMRequest c.name rpm extra] ∧
    dispatched (c.resetZeroPosition offset extra).trace
      = [MotorLegacy.resetZeroPositionRequest c.name offset extra] ∧
    dispatched (c.stop extra).trace = [MotorLegacy.stopRequest c.name extra] ∧
    dispatched (c.getProperties extra).trace
      = [MotorLegacy.getPropertiesRequest c.name extra] ∧
    dispatched (c.getPosition extra).trace
      = [MotorLegacy.getPositionRequest c.name extra] ∧
    dispatched (c.isPowered extra).trace
      = [MotorLegacy.isPoweredRequest c.name extra] ∧
    dispatched (c.isMoving).trace = [MotorLegacy.isMovingRequest c.name] ∧
    (c.getProperties extra).result
      = Except.ok (MotorLegacy.getPropertiesReturn rProps) ∧
    (c.getPosition extra).result
      = Except.ok (MotorLegacy.getPositionReturn rPos) ∧
    (c.isPowered extra).result = Except.ok (MotorLegacy.isPoweredReturn rPow) ∧
    (c.isMoving).result = Except.ok (MotorLegacy.isMovingReturn rMov) := by
  refine ⟨?_, ?_, ?_, ?_, ?_, ?_, ?_, ?_, ?_, ?_, ?_, ?_, ?_, ?_⟩
  · exact dispatched_logTrace c.options _
  · exact dispatched_logTrace c.options _
  · exact dispatched_logTrace c.options _
  · exact dispatched_logTrace c.options _
  · exact dispatched_logTrace c.options _
  · exact dispatched_logTrace c.options _
  · exact dispatched_logTrace c.options _
  · exact dispatched_logTrace c.options _
  · exact dispatched_logTrace c.options _
  · exact dispatched_logTrace c.options _
  · simp [MotorClient.getProperties, channelCall, h1, Except.map,
      MotorLegacy.getPropertiesReturn]
  · simp [MotorClient.getPosition, channelCall, h2, Except.map,
      MotorLegacy.getPositionReturn]
  · simp [MotorClient.isPowered, channelCall, h3, Except.map,
      MotorLegacy.isPoweredReturn]
  · simp [MotorClient.isMoving, channelCall, h4, Except.map,
      MotorLegacy.isMovingReturn]

theorem motor_request_encodings_agree_witness :
    dispatched (motorClientEx.setPower 1 []).trace
      = [MotorLegacy.setPowerRequest "motor-1" 1 []] ∧
    (motorClientEx.getPosition []).result
      = Except.ok (MotorLegacy.getPositionReturn { position := 3 }) :=
  let h := motor_request_encodings_agree motorClientEx 1 0 0 0 0 []
    { positionReporting := true } { position := 3 }
    { isOn := true, powerPct := 1 } { isMoving := false } rfl rfl rfl rfl
  ⟨h.1, h.2.2.2.2.2.2.2.2.2.2.2.1⟩

/-- C10: in the page returned by tabularDataByFilter both projected time
fields are derived from the timeRequested timestamp of the wire entry,
so timeReceived always equals timeRequested in the projection,
regardless of the timeReceived value the wire response carries; and a
successful method call returns exactly that projection. -/
theorem tabularDataByFilter_timeReceived_from_timeRequested :
    (∀ (response : DataApi.TabularDataByFilterResponse) (x : DataApi.TabularData),
      x ∈ projectTabularData response →
        x.timeReceived = x.timeRequested ∧
        ∃ entry, entry ∈ response.data ∧
          x.timeRequested = entry.timeRequested.map Timestamp.toDate) ∧
    (∀ (response : DataApi.TabularDataByFilterResponse) (t : Option Timestamp),
      projectTabularData
          { response with
            data := response.data.map (fun e => { e with timeReceived := t }) }
        = projectTabularData response) ∧
    (∀ (c : DataClient) (filter : Option DataApi.Filter) (limit : Option Nat)
      (sortOrder : Option DataApi.Order) (last : String)
      (countOnly includeInternalData : Bool)
      (response : DataApi.TabularDataByFilterResponse),
      c.dataClient.tabularDataByFilter
          { dataRequest :=
              some { filter := filter, limit := limit, sortOrder := sortOrder, last := last },
            countOnly := countOnly, includeInternalData := includeInternalData }
        = Except.ok response →
      (c.tabularDataByFilter filter limit sortOrder last countOnly
        includeInternalData).result
        = Except.ok { data := projectTabularData response,
                      count := response.count, last := response.last }) := by
  refine ⟨?_, ?_, ?_⟩
  · intro response x hx
    simp only [projectTabularData, List.mem_map] at hx
    obtain ⟨entry, hmem, hproj⟩ := hx
    subst hproj
    exact ⟨rfl, entry, hmem, rfl⟩
  · intro response t
    simp only [projectTabularData, List.map_map]
    rfl
  · intro c filter limit sortOrder last countOnly includeInternalData response h
    simp [DataClient.tabularDataByFilter, channelCall, h, Except.map]

theorem tabularDataByFilter_timeReceived_witness :
    projectedEntryEx.timeReceived = projectedEntryEx.timeRequested ∧
    ∃ entry, entry ∈ tabularRespEx.data ∧
      projectedEntryEx.timeRequested = entry.timeRequested.map Timestamp.toDate :=
  tabularDataByFilter_timeReceived_from_timeRequested.1 tabularRespEx
    projectedEntryEx (by decide)

end ViamSdk
